import Mathlib

/-!
Verification development for the vista-hackathon staffing backend.

The definitions below are shallow embeddings of the Python source under
`src/backend/app`.  Dates and instants are modelled as integers (any two
comparable instants), money and capacity values as rationals, database rows
as lists, and the external collaborators (Supabase client, Edge Functions,
LLM runners) as explicit parameters of the embedded functions.  Each
definition's doc comment names the source function and lines it embeds.
-/

namespace Vista

/-- Instants (dates or datetimes already normalized by the caller) are
modelled as integers; only their linear order is used by the code. -/
abbrev Date := Int

/-- Embeds the overlap test of `get_staffer_task_assignments`
(`src/backend/app/agents/resource_management.py` lines 206-231 and
`src/backend/app/ai/agents/resource_management.py` lines 208-275).
The source initializes `overlaps = True`, and only when both
`project_task_start_date` and `project_task_due_date` are present (and parse)
replaces it with `not (task_due_dt < timeoff_start_dt or task_start_dt >
timeoff_end_dt)`.  A missing start or due date therefore leaves
`overlaps = True` (assume affected). -/
def taskOverlaps (task_start_date task_due_date : Option Date)
    (timeoff_start timeoff_end : Date) : Bool :=
  match task_start_date, task_due_date with
  | some task_start_dt, some task_due_dt =>
      !(decide (task_due_dt < timeoff_start) || decide (task_start_dt > timeoff_end))
  | _, _ => true

/-- Embeds the `TaskAssignment` pydantic model of both
`resource_management.py` files. -/
structure TaskAssignment where
  task_id : String
  task_name : String
  project_id : String
  project_name : Option String
  estimated_hours : Option Int
  task_start_date : Option Date
  task_due_date : Option Date
  current_staffer_id : String
deriving DecidableEq, Repr

/-- Embeds the selection loop of `get_staffer_task_assignments`: the rows
returned by the `staffer_assignments` query (here the `tasks` parameter) are
kept exactly when `taskOverlaps` holds, in query order. -/
def get_staffer_task_assignments (tasks : List TaskAssignment)
    (start_date end_date : Date) : List TaskAssignment :=
  tasks.filter (fun t => taskOverlaps t.task_start_date t.task_due_date start_date end_date)

end Vista

namespace Vista

/-- C1: with both task dates present the assignment is flagged iff
`not (task_due < window_start or task_start > window_end)` (closed
intervals, shared boundary instants overlap), and with either date absent
the assignment is always flagged. -/
theorem overlap_flagging_spec_c1 (s d : Int) (o1 o2 : Option Int)
    (a b ws we : Int) (h1 : a ≤ ws) (h2 : ws ≤ we) (h3 : we ≤ b) :
    (taskOverlaps (some s) (some d) ws we = true ↔ ¬(d < ws ∨ s > we)) ∧
    taskOverlaps none o1 ws we = true ∧
    taskOverlaps o2 none ws we = true ∧
    taskOverlaps (some a) (some ws) ws we = true ∧
    taskOverlaps (some we) (some b) ws we = true ∧
    (∀ (tasks : List TaskAssignment) (t : TaskAssignment),
      t ∈ get_staffer_task_assignments tasks ws we ↔
        t ∈ tasks ∧ taskOverlaps t.task_start_date t.task_due_date ws we = true) := by
  refine ⟨?_, ?_, ?_, ?_, ?_, ?_⟩
  · simp [taskOverlaps]
  · cases o1 <;> rfl
  · cases o2 <;> rfl
  · simp [taskOverlaps]
    exact le_trans h1 h2
  · simp [taskOverlaps]
    exact le_trans h2 h3
  · intro tasks t
    simp [get_staffer_task_assignments, List.mem_filter]

/-- Witness for `overlap_flagging_spec_c1` at concrete instants. -/
theorem overlap_flagging_spec_c1_witness :
    (taskOverlaps (some 0) (some 5) 2 3 = true ↔ ¬((5 : Int) < 2 ∨ (0 : Int) > 3)) ∧
    taskOverlaps none (some 0) 2 3 = true ∧
    taskOverlaps (some 0) none 2 3 = true ∧
    taskOverlaps (some 1) (some 2) 2 3 = true ∧
    taskOverlaps (some 3) (some 4) 2 3 = true ∧
    (∀ (tasks : List TaskAssignment) (t : TaskAssignment),
      t ∈ get_staffer_task_assignments tasks 2 3 ↔
        t ∈ tasks ∧ taskOverlaps t.task_start_date t.task_due_date 2 3 = true) :=
  overlap_flagging_spec_c1 0 5 (some 0) (some 0) 1 4 2 3
    (by decide) (by decide) (by decide)

/-- C7 counterexample: the claim says every pair involving an interval whose
start lies after its end evaluates as overlapping (`true`).  The source has no
malformed-interval branch: for the inverted task interval start 25 / due 20
against the window 22..23, the formula `not (due < wstart or start > wend)`
yields `false`. -/
theorem malformed_interval_c7_counterexample :
    (20 : Int) < 25 ∧ taskOverlaps (some 25) (some 20) 22 23 = false := by
  constructor
  · decide
  · rfl

/-- C7 amended: a malformed interval (start chronologically after its end) is
not special-cased; the evaluation still returns, without error, exactly the
closed-interval formula `not (task_due < window_start or task_start >
window_end)`, which may be `false` for such an interval. -/
theorem malformed_interval_c7_amended (s d ws we : Int) (hmal : d < s) :
    taskOverlaps (some s) (some d) ws we = true ↔ ¬(d < ws ∨ s > we) := by
  simp [taskOverlaps]

/-- Witness for `malformed_interval_c7_amended` on a malformed task interval
that the formula still reports as overlapping. -/
theorem malformed_interval_c7_witness :
    taskOverlaps (some 25) (some 20) 10 30 = true ↔ ¬((20 : Int) < 10 ∨ (25 : Int) > 30) :=
  malformed_interval_c7_amended 25 20 10 30 (by decide)

/-- Embeds the `ResourceManagementResponse` pydantic model
(`src/backend/app/ai/agents/resource_management.py` lines 72-80);
`new_assignments` entries are elided to their task ids since the embedded
response constructor below always produces the empty list, as the source
does. -/
structure ResourceManagementResponse where
  success : Bool
  message : String
  affected_tasks_count : Nat
  new_assignments : List String
  warnings : List String
  recommendations : List String
deriving DecidableEq, Repr

/-- Embeds the response construction of `handle_resource_management`
(`src/backend/app/ai/agents/resource_management.py` lines 619-627): after the
agent run, the source builds
`ResourceManagementResponse(success=True, message=str(result),
affected_tasks_count=0, new_assignments=[], warnings=[], recommendations=[])`
with the literal `0` annotated `# This would be parsed from the actual
response`.  The assignments found earlier by `get_staffer_task_assignments`
do not flow into any field. -/
def handle_resource_management_response (result_message : String) :
    ResourceManagementResponse :=
  { success := true
    message := result_message
    affected_tasks_count := 0
    new_assignments := []
    warnings := []
    recommendations := [] }

/-- The boundary-inside scenario of spec section 8: a task spanning
instants 18..22 while the time-off window is 20..20. -/
def affectedScenarioTask : TaskAssignment :=
  { task_id := "T1"
    task_name := "Task T1"
    project_id := "P1"
    project_name := some "Project P1"
    estimated_hours := some 8
    task_start_date := some 18
    task_due_date := some 22
    current_staffer_id := "S1" }

/-- C6: the claim requires `affected_tasks_count` to equal the number of
overlapping task assignments found; in the source the field is hardcoded to
`0` regardless.  Here one assignment overlaps the window, yet the completed
run reports zero. -/
theorem affected_tasks_count_c6_bug :
    (get_staffer_task_assignments [affectedScenarioTask] 20 20).length = 1 ∧
    (handle_resource_management_response "agent run result").affected_tasks_count = 0 := by
  constructor
  · rfl
  · rfl

/-- Embeds the `StafferInfo` pydantic model of both `resource_management.py`
files; `capacity` (a fractional FTE float) is modelled as a rational. -/
structure StafferInfo where
  staffer_id : String
  first_name : String
  last_name : String
  title : String
  capacity : ℚ
  time_zone : Option String
  seniority_level : Option Int
deriving DecidableEq, Repr

/-- The sort key of the ranking step: the source lambda
`(x.seniority_level or 0, x.capacity)`, i.e. an absent seniority level is
treated as `0`. -/
def sortKey (x : StafferInfo) : Int × ℚ :=
  (x.seniority_level.getD 0, x.capacity)

/-- The descending comparison realized by
`available_staffers.sort(key=..., reverse=True)`: `x` may stay before `y`
iff `sortKey x` is lexicographically at least `sortKey y`. -/
def staffGe (x y : StafferInfo) : Prop :=
  (sortKey y).1 < (sortKey x).1 ∨
    ((sortKey x).1 = (sortKey y).1 ∧ (sortKey y).2 ≤ (sortKey x).2)

instance staffGe.instDecidableRel : DecidableRel staffGe := fun x y =>
  inferInstanceAs (Decidable (_ ∨ _))

instance staffGe.instIsTotal : IsTotal StafferInfo staffGe := by
  constructor
  intro a b
  unfold staffGe
  rcases lt_trichotomy (sortKey a).1 (sortKey b).1 with h | h | h
  · exact Or.inr (Or.inl h)
  · rcases le_total (sortKey a).2 (sortKey b).2 with hc | hc
    · exact Or.inr (Or.inr ⟨h.symm, hc⟩)
    · exact Or.inl (Or.inr ⟨h, hc⟩)
  · exact Or.inl (Or.inl h)

instance staffGe.instIsTrans : IsTrans StafferInfo staffGe := by
  constructor
  intro a b c hab hbc
  rcases hab with h1 | ⟨h1e, h1c⟩ <;> rcases hbc with h2 | ⟨h2e, h2c⟩
  · exact Or.inl (lt_trans h2 h1)
  · exact Or.inl (by rw [← h2e]; exact h1)
  · exact Or.inl (by rw [h1e]; exact h2)
  · exact Or.inr ⟨h1e.trans h2e, le_trans h2c h1c⟩

/-- Embeds the ranking step at the end of `find_available_staffers`
(`src/backend/app/ai/agents/resource_management.py` lines 457-461 and
`src/backend/app/agents/resource_management.py` lines 329-332):
`available_staffers.sort(key=lambda x: (x.seniority_level or 0, x.capacity),
reverse=True)`.  Python's `list.sort` is a stable sort; on any input its
output is the unique permutation that is weakly descending by the key with
ties in input order, which stable insertion by `staffGe` computes. -/
def find_available_staffers_rank (available_staffers : List StafferInfo) :
    List StafferInfo :=
  List.insertionSort staffGe available_staffers

/-- If `x` may not be placed before `y` under the descending comparison,
their sort keys differ. -/
theorem sortKey_ne_of_not_staffGe {x y : StafferInfo} (h : ¬staffGe x y) :
    sortKey y ≠ sortKey x := by
  intro he
  apply h
  unfold staffGe
  exact Or.inr ⟨congrArg Prod.fst he.symm, le_of_eq (congrArg Prod.snd he)⟩

/-- Inserting `x` into `l` with the descending comparison prepends `x` to the
equal-key fiber of `l` (if `x` is in that fiber) and leaves every other fiber
unchanged: the skipped prefix holds strictly greater keys only. -/
theorem filter_key_orderedInsert (k : Int × ℚ) (x : StafferInfo) :
    ∀ l : List StafferInfo,
      (List.orderedInsert staffGe x l).filter (fun y => decide (sortKey y = k)) =
        if sortKey x = k then
          x :: l.filter (fun y => decide (sortKey y = k))
        else l.filter (fun y => decide (sortKey y = k))
  | [] => by
      by_cases hxk : sortKey x = k <;> simp [List.orderedInsert, hxk]
  | b :: l => by
      by_cases hr : staffGe x b
      · by_cases hxk : sortKey x = k <;>
          simp [List.orderedInsert, hr, List.filter_cons, hxk]
      · have hbx : sortKey b ≠ sortKey x := sortKey_ne_of_not_staffGe hr
        have ih := filter_key_orderedInsert k x l
        by_cases hxk : sortKey x = k
        · have hbk : ¬(sortKey b = k) := by rw [← hxk]; exact hbx
          simp [List.orderedInsert, hr, List.filter_cons, hbk, hxk] at ih ⊢
          exact ih
        · by_cases hbk : sortKey b = k <;>
            simp [List.orderedInsert, hr, List.filter_cons, hbk, hxk] at ih ⊢ <;>
            exact ih

/-- Stability of the embedded ranking: every equal-key fiber of the output is
the equal-key fiber of the input, in input order. -/
theorem filter_key_insertionSort (k : Int × ℚ) :
    ∀ l : List StafferInfo,
      (List.insertionSort staffGe l).filter (fun y => decide (sortKey y = k)) =
        l.filter (fun y => decide (sortKey y = k))
  | [] => rfl
  | b :: l => by
      rw [List.insertionSort, filter_key_orderedInsert k b (List.insertionSort staffGe l)]
      by_cases hbk : sortKey b = k <;>
        simp [List.filter_cons, hbk, filter_key_insertionSort k l]

/-- C8: the ranker's output is a permutation of its input, weakly descending
lexicographically by `(seniority_level or 0, capacity)`, and stable: every
equal-key fiber keeps its original input order. -/
theorem candidate_ranker_c8 (available_staffers : List StafferInfo) :
    (find_available_staffers_rank available_staffers).Perm available_staffers ∧
    List.Sorted staffGe (find_available_staffers_rank available_staffers) ∧
    ∀ k : Int × ℚ,
      (find_available_staffers_rank available_staffers).filter
          (fun y => decide (sortKey y = k)) =
        available_staffers.filter (fun y => decide (sortKey y = k)) :=
  ⟨List.perm_insertionSort staffGe available_staffers,
   List.sorted_insertionSort staffGe available_staffers,
   fun k => filter_key_insertionSort k available_staffers⟩

/-- Embeds `BusinessEventType` (`src/backend/app/events/bus.py` lines 6-9). -/
inductive BusinessEventType where
  | TEST
  | ERROR
  | UPDATE
deriving DecidableEq, Repr

/-- Embeds `AgentType` (`src/backend/app/events/bus.py` lines 11-15). -/
inductive AgentType where
  | ORCHESTRATOR
  | PROJECT
  | RESOURCE_MANAGEMENT
  | PROFITABILITY
deriving DecidableEq, Repr

/-- Embeds the `BusinessEvent` dataclass (`src/backend/app/events/bus.py`
lines 17-22); the `timestamp` instant is modelled as an integer. -/
structure BusinessEvent where
  type : BusinessEventType
  message : String
  agent_id : AgentType
  timestamp : Int
deriving DecidableEq, Repr

/-- Embeds constructing a `BusinessEvent` without an explicit timestamp, as
every call site in the repository does.  The dataclass field declaration is
`timestamp: datetime = datetime.now()`: Python evaluates that default
expression exactly once, when the class object is created at module import
(`classDefTime` here), and every later construction reuses the captured
value.  `creationTime` is the instant at which the construction runs; per
the source semantics it does not reach the event. -/
def mkBusinessEvent (classDefTime : Int) (ty : BusinessEventType)
    (msg : String) (agent : AgentType) (creationTime : Int) : BusinessEvent :=
  let _ := creationTime
  { type := ty, message := msg, agent_id := agent, timestamp := classDefTime }

/-- Embeds the SSE serialization of `event_generator`
(`src/backend/app/main.py` lines 291-296): the `timestamp` field relayed to
external observers is `event.timestamp.isoformat() + "Z"`, i.e. a rendering
of the very instant stored on the event. -/
def serializedTimestamp (event : BusinessEvent) : Int :=
  event.timestamp

/-- C10: the claim requires two events created at different instants to carry
different timestamps, each its own emission instant.  With the module
imported at instant 100, an event created at instant 200 and another created
at instant 300 both carry (and serialize) the shared default instant 100. -/
theorem event_timestamp_c10_bug :
    (mkBusinessEvent 100 BusinessEventType.UPDATE "first event"
        AgentType.PROFITABILITY 200).timestamp =
      (mkBusinessEvent 100 BusinessEventType.UPDATE "second event"
        AgentType.RESOURCE_MANAGEMENT 300).timestamp ∧
    serializedTimestamp (mkBusinessEvent 100 BusinessEventType.UPDATE "first event"
        AgentType.PROFITABILITY 200) = 100 ∧
    (mkBusinessEvent 100 BusinessEventType.UPDATE "first event"
        AgentType.PROFITABILITY 200).timestamp ≠ 200 := by
  refine ⟨rfl, rfl, ?_⟩
  decide

/-- Handlers subscribed on the bus are identified by numbers; a handler's
behaviour (the `await subscriber(event)` body) is modelled as appending the
event to the handler's inbox, so inboxes record exactly the invocations made
by `emit` and their order. -/
abbrev HandlerId := Nat

/-- Embeds the subscriber list of the `EventBus` singleton
(`src/backend/app/events/bus.py` lines 24-45). -/
structure EventBus where
  subscribers : List HandlerId
deriving DecidableEq, Repr

/-- Embeds `EventBus.subscribe`: `self.subscribers.append(callback)`. -/
def EventBus.subscribe (bus : EventBus) (h : HandlerId) : EventBus :=
  { subscribers := bus.subscribers ++ [h] }

/-- Embeds `EventBus.unsubscribe`: remove the first occurrence when present,
otherwise leave the list unchanged. -/
def EventBus.unsubscribe (bus : EventBus) (h : HandlerId) : EventBus :=
  { subscribers := bus.subscribers.erase h }

/-- One handler invocation `await subscriber(event)`: the event is appended
to that handler's inbox. -/
def invokeHandler (inboxes : HandlerId → List BusinessEvent) (h : HandlerId)
    (e : BusinessEvent) : HandlerId → List BusinessEvent :=
  fun h2 => if h2 = h then inboxes h2 ++ [e] else inboxes h2

/-- Embeds `EventBus.emit` (`src/backend/app/events/bus.py` lines 33-35):
`for subscriber in self.subscribers: await subscriber(event)` — the handlers
are invoked sequentially in subscription order, and the producer resumes only
after the fold has delivered the event to every current subscriber. -/
def EventBus.emit (bus : EventBus) (inboxes : HandlerId → List BusinessEvent)
    (e : BusinessEvent) : HandlerId → List BusinessEvent :=
  bus.subscribers.foldl (fun acc h => invokeHandler acc h e) inboxes

/-- A producer emitting a sequence of events, each `emit` completing before
the next begins (the producer is resumed only after `emit` returns). -/
def EventBus.emitAll (bus : EventBus) (inboxes : HandlerId → List BusinessEvent)
    (events : List BusinessEvent) : HandlerId → List BusinessEvent :=
  events.foldl (fun acc e => bus.emit acc e) inboxes

/-- One `emit` appends the event to a handler's inbox once per occurrence of
the handler in the subscriber list. -/
theorem emit_apply (e : BusinessEvent) (h : HandlerId) :
    ∀ (subs : List HandlerId) (inboxes : HandlerId → List BusinessEvent),
      (subs.foldl (fun acc h2 => invokeHandler acc h2 e) inboxes) h =
        inboxes h ++ List.replicate (subs.count h) e
  | [], inboxes => by simp
  | s :: subs, inboxes => by
      rw [List.foldl_cons, emit_apply e h subs]
      by_cases hs : h = s
      · subst hs
        simp only [invokeHandler, if_true, List.count_cons_self, List.append_assoc,
          List.singleton_append, ← List.replicate_succ]
      · have : s ≠ h := fun hc => hs hc.symm
        simp [invokeHandler, hs, List.count_cons, this]

/-- C2: on a bus whose subscriber list holds each handler once, `emit`
delivers an event exactly once to every subscribed handler and never to an
unsubscribed one, and a producer emitting a sequence of events leaves every
subscribed handler's inbox holding exactly that sequence, in emission
order. -/
theorem event_bus_delivery_c2 (bus : EventBus) (hnd : bus.subscribers.Nodup)
    (h g : HandlerId) (hmem : h ∈ bus.subscribers) (hg : g ∉ bus.subscribers)
    (inboxes : HandlerId → List BusinessEvent) (e : BusinessEvent)
    (events : List BusinessEvent) :
    bus.emit inboxes e h = inboxes h ++ [e] ∧
    bus.emit inboxes e g = inboxes g ∧
    bus.emitAll inboxes events h = inboxes h ++ events := by
  have hcount : bus.subscribers.count h = 1 :=
    List.count_eq_one_of_mem hnd hmem
  have hemit : ∀ (ib : HandlerId → List BusinessEvent) (ev : BusinessEvent),
      bus.emit ib ev h = ib h ++ [ev] := by
    intro ib ev
    rw [EventBus.emit, emit_apply, hcount]
    rfl
  refine ⟨hemit inboxes e, ?_, ?_⟩
  · have hcg : bus.subscribers.count g = 0 := List.count_eq_zero.mpr hg
    rw [EventBus.emit, emit_apply, hcg]
    simp
  · clear hcount
    induction events generalizing inboxes with
    | nil => simp [EventBus.emitAll]
    | cons ev evs ih =>
        rw [EventBus.emitAll, List.foldl_cons]
        have := ih (bus.emit inboxes ev)
        rw [EventBus.emitAll] at this
        rw [this, hemit inboxes ev]
        simp

/-- Witness for `event_bus_delivery_c2`: three subscribers, two emitted
events; subscriber 1 receives both in order, the unsubscribed handler 7
receives nothing. -/
theorem event_bus_delivery_c2_witness :
    (EventBus.mk [0, 1, 2]).emit (fun _ => [])
        (mkBusinessEvent 100 BusinessEventType.UPDATE "first event"
          AgentType.PROFITABILITY 200) 1 =
      [] ++ [mkBusinessEvent 100 BusinessEventType.UPDATE "first event"
          AgentType.PROFITABILITY 200] ∧
    (EventBus.mk [0, 1, 2]).emit (fun _ => [])
        (mkBusinessEvent 100 BusinessEventType.UPDATE "first event"
          AgentType.PROFITABILITY 200) 7 = [] ∧
    (EventBus.mk [0, 1, 2]).emitAll (fun _ => [])
        [mkBusinessEvent 100 BusinessEventType.UPDATE "first event"
          AgentType.PROFITABILITY 200,
         mkBusinessEvent 100 BusinessEventType.ERROR "second event"
          AgentType.ORCHESTRATOR 300] 1 =
      [] ++ [mkBusinessEvent 100 BusinessEventType.UPDATE "first event"
          AgentType.PROFITABILITY 200,
         mkBusinessEvent 100 BusinessEventType.ERROR "second event"
          AgentType.ORCHESTRATOR 300] :=
  event_bus_delivery_c2 (EventBus.mk [0, 1, 2]) (by decide) 1 7 (by decide)
    (by decide) (fun _ => [])
    (mkBusinessEvent 100 BusinessEventType.UPDATE "first event"
      AgentType.PROFITABILITY 200)
    [mkBusinessEvent 100 BusinessEventType.UPDATE "first event"
      AgentType.PROFITABILITY 200,
     mkBusinessEvent 100 BusinessEventType.ERROR "second event"
      AgentType.ORCHESTRATOR 300]

/-- Embeds the `ProfitabilitySnapshot` pydantic model
(`src/backend/app/services/profitabilityService.py` lines 11-20); row ids are
numbers, instants integers, money rational. -/
structure ProfitabilitySnapshot where
  id : Nat
  created_at : Int
  project_id : String
  baseline_id : Option Nat
  total_profitability : ℚ
  triggered_by_agent : Option String
  triggered_by_action : Option String
deriving DecidableEq, Repr

/-- Embeds the `ProfitabilityDelta` pydantic model
(`src/backend/app/services/profitabilityService.py` lines 23-30). -/
structure ProfitabilityDelta where
  current_profitability : ℚ
  baseline_profitability : ℚ
  change_amount : ℚ
  change_percentage : Option ℚ
  is_improvement : Bool
deriving DecidableEq, Repr

/-- Embeds `SnapshotResponse` (`profitabilityService.py` lines 34-41). -/
structure SnapshotResponse where
  success : Bool
  message : Option String
  error : Option String
  snapshot : Option ProfitabilitySnapshot
deriving DecidableEq, Repr

/-- Embeds `DeltaResponse` (`profitabilityService.py` lines 44-45). -/
structure DeltaResponse where
  success : Bool
  message : Option String
  error : Option String
  delta : Option ProfitabilityDelta
deriving DecidableEq, Repr

/-- The external world seen by `ProfitabilityService`: whether
`supabase_client` is available, the persisted
`project_profitability_snapshots` table in insertion order, the behaviour of
the `get-total-profitability` Edge Function invocation (a value, or a raised
error), whether a table insert succeeds, the next generated row id, and the
`datetime.utcnow()` clock (bumped per insert, so `created_at` is strictly
increasing as in a live run). -/
structure ProfitabilityDb where
  clientPresent : Bool
  snapshots : List ProfitabilitySnapshot
  invokeResult : Except String ℚ
  insertOk : Bool
  nextId : Nat
  now : Int

/-- Embeds `ProfitabilityService.calculate_project_profitability`
(`profitabilityService.py` lines 92-132): an absent client raises inside the
`try` and is caught, a failing Edge Function invocation is caught; both paths
`return 0.0` (the source comment reads `Log the error and return 0 for
now`).  Only a successful invocation yields its value. -/
def calculate_project_profitability (db : ProfitabilityDb) : ℚ :=
  if db.clientPresent then
    match db.invokeResult with
    | Except.ok v => v
    | Except.error _ => 0
  else 0

/-- The `snapshot_data` record built by `create_snapshot_from_project_id`
(`profitabilityService.py` lines 164-172). -/
def newSnapshot (db : ProfitabilityDb) (project_id : String)
    (baseline_id : Option Nat) (triggered_by_agent triggered_by_action : Option String) :
    ProfitabilitySnapshot :=
  { id := db.nextId
    created_at := db.now
    project_id := project_id
    baseline_id := baseline_id
    total_profitability := calculate_project_profitability db
    triggered_by_agent := triggered_by_agent
    triggered_by_action := triggered_by_action }

/-- Embeds `ProfitabilityService.create_snapshot_from_project_id`
(`profitabilityService.py` lines 134-197): without a client it returns the
structured failure; otherwise it computes the current profitability, inserts
one row, and returns success with the inserted snapshot when the insert
reports data, the structured failure otherwise. -/
def create_snapshot_from_project_id (db : ProfitabilityDb) (project_id : String)
    (baseline_id : Option Nat)
    (triggered_by_agent triggered_by_action : Option String) :
    SnapshotResponse × ProfitabilityDb :=
  if db.clientPresent then
    let snap := newSnapshot db project_id baseline_id triggered_by_agent triggered_by_action
    if db.insertOk then
      ({ success := true
         message := some "Profitability snapshot created successfully"
         error := none
         snapshot := some snap },
       { db with
          snapshots := db.snapshots ++ [snap]
          nextId := db.nextId + 1
          now := db.now + 1 })
    else
      ({ success := false, message := none
         error := some "Failed to create profitability snapshot", snapshot := none },
       db)
  else
    ({ success := false, message := none
       error := some "Database connection not available", snapshot := none },
     db)

/-- The row selected by `.order("created_at", desc=True).limit(1)`: the
element with the greatest `created_at` (later rows win ties; `created_at`
values are distinct in states produced by the embedded insert). -/
def pickLatest (rows : List ProfitabilitySnapshot) : Option ProfitabilitySnapshot :=
  rows.foldl
    (fun acc s =>
      match acc with
      | none => some s
      | some a => if a.created_at ≤ s.created_at then some s else some a)
    none

/-- Embeds `ProfitabilityService.get_latest_baseline_for_project`
(`profitabilityService.py` lines 199-243): latest row of the project whose
`baseline_id` is null, or the structured failure. -/
def get_latest_baseline_for_project (db : ProfitabilityDb) (project_id : String) :
    SnapshotResponse :=
  if db.clientPresent then
    match pickLatest (db.snapshots.filter
        (fun s => decide (s.project_id = project_id) && decide (s.baseline_id = none))) with
    | some snap =>
        { success := true, message := some "Latest baseline found", error := none,
          snapshot := some snap }
    | none =>
        { success := false, message := none,
          error := some "No baseline snapshot found", snapshot := none }
  else
    { success := false, message := none,
      error := some "Database connection not available", snapshot := none }

/-- Embeds `ProfitabilityService.get_profitability_snapshot_by_id`
(`profitabilityService.py` lines 51-90). -/
def get_profitability_snapshot_by_id (db : ProfitabilityDb) (snapshot_id : Nat) :
    SnapshotResponse :=
  if db.clientPresent then
    match db.snapshots.find? (fun s => decide (s.id = snapshot_id)) with
    | some snap =>
        { success := true, message := some "Snapshot retrieved successfully",
          error := none, snapshot := some snap }
    | none =>
        { success := false, message := none,
          error := some "Snapshot not found", snapshot := none }
  else
    { success := false, message := none,
      error := some "Database connection not available", snapshot := none }

/-- Embeds `ProfitabilityService.calculate_profitability_change_since_baseline`
(`profitabilityService.py` lines 245-311): fetch the snapshot, fetch the
latest baseline of its project, then
`change_amount = current - baseline`,
`change_percentage = change_amount / abs(baseline) * 100` guarded by
`baseline != 0` (else `None`), and `is_improvement = change_amount > 0`. -/
def calculate_profitability_change_since_baseline (db : ProfitabilityDb)
    (snapshot_id : Nat) : DeltaResponse :=
  let current_response := get_profitability_snapshot_by_id db snapshot_id
  match current_response.success, current_response.snapshot with
  | true, some current_snapshot =>
      let baseline_response := get_latest_baseline_for_project db current_snapshot.project_id
      match baseline_response.success, baseline_response.snapshot with
      | true, some baseline_snapshot =>
          let current_profitability := current_snapshot.total_profitability
          let baseline_profitability := baseline_snapshot.total_profitability
          let change_amount := current_profitability - baseline_profitability
          let change_percentage : Option ℚ :=
            if baseline_profitability ≠ 0 then
              some (change_amount / |baseline_profitability| * 100)
            else none
          let is_improvement := decide (change_amount > 0)
          { success := true, message := some "Profitability change calculated",
            error := none,
            delta := some
              { current_profitability := current_profitability
                baseline_profitability := baseline_profitability
                change_amount := change_amount
                change_percentage := change_percentage
                is_improvement := is_improvement } }
      | _, _ =>
          { success := false, message := none,
            error := some "Could not retrieve baseline", delta := none }
  | _, _ =>
      { success := false, message := none,
        error := some "Could not retrieve snapshot", delta := none }

/-- With a live client and a succeeding insert, `create_snapshot_from_project_id`
returns success carrying the freshly built row and appends exactly that row. -/
theorem create_snapshot_success (db : ProfitabilityDb) (pid : String)
    (bid : Option Nat) (ag ac : Option String)
    (hc : db.clientPresent = true) (hi : db.insertOk = true) :
    create_snapshot_from_project_id db pid bid ag ac =
      ({ success := true
         message := some "Profitability snapshot created successfully"
         error := none
         snapshot := some (newSnapshot db pid bid ag ac) },
       { db with
          snapshots := db.snapshots ++ [newSnapshot db pid bid ag ac]
          nextId := db.nextId + 1
          now := db.now + 1 }) := by
  simp [create_snapshot_from_project_id, hc, hi]

/-- Embeds the returned dictionary of `create_profitability_baseline`
(`src/backend/app/agents/profitability.py` lines 94-144): only the keys the
claims speak about; `baseline_exists` is absent (modelled `false`) except on
the already-exists path. -/
structure BaselineResult where
  success : Bool
  baseline_exists : Bool
  baseline_created : Bool
  error : Option String
deriving DecidableEq, Repr

/-- A tracking session: the database world plus the module-level
`_project_baselines_created` set (`profitability.py` line 73), modelled as a
list of project ids. -/
structure ProfitabilitySession where
  db : ProfitabilityDb
  baselines_created : List String

/-- Embeds `create_profitability_baseline`
(`src/backend/app/agents/profitability.py` lines 76-144): if the project is
already in `_project_baselines_created`, return success with
`baseline_exists=True` and touch nothing; otherwise create a snapshot with a
null `baseline_id`, and on success record the project in the session set. -/
def create_profitability_baseline (st : ProfitabilitySession) (project_id : String)
    (triggered_by_agent triggered_by_action : String) :
    BaselineResult × ProfitabilitySession :=
  if project_id ∈ st.baselines_created then
    ({ success := true, baseline_exists := true, baseline_created := false,
       error := none }, st)
  else
    let pr := create_snapshot_from_project_id st.db project_id none
      (some triggered_by_agent) (some triggered_by_action)
    if pr.fst.success then
      ({ success := true, baseline_exists := false, baseline_created := true,
         error := none },
       { db := pr.snd, baselines_created := project_id :: st.baselines_created })
    else
      ({ success := false, baseline_exists := false, baseline_created := false,
         error := some "Failed to create baseline" },
       { db := pr.snd, baselines_created := st.baselines_created })

/-- C3: with a live client and accepting store, the first `create_baseline`
call for a fresh project persists exactly one snapshot (null baseline
reference) and succeeds; the second call succeeds marked
`baseline_exists=true` and changes nothing; and in any session state already
listing the project, further calls are successful no-ops — so at most one
baseline row per project is created per session. -/
theorem baseline_once_per_session_c3 (st : ProfitabilitySession) (pid : String)
    (agent1 action1 agent2 action2 : String)
    (h1 : pid ∉ st.baselines_created) (h2 : st.db.clientPresent = true)
    (h3 : st.db.insertOk = true) :
    ∃ snap : ProfitabilitySnapshot,
      (create_profitability_baseline st pid agent1 action1).fst.success = true ∧
      (create_profitability_baseline st pid agent1 action1).fst.baseline_exists = false ∧
      (create_profitability_baseline st pid agent1 action1).snd.db.snapshots =
        st.db.snapshots ++ [snap] ∧
      snap.baseline_id = none ∧
      snap.project_id = pid ∧
      (create_profitability_baseline
          (create_profitability_baseline st pid agent1 action1).snd
          pid agent2 action2).fst.success = true ∧
      (create_profitability_baseline
          (create_profitability_baseline st pid agent1 action1).snd
          pid agent2 action2).fst.baseline_exists = true ∧
      (create_profitability_baseline
          (create_profitability_baseline st pid agent1 action1).snd
          pid agent2 action2).snd =
        (create_profitability_baseline st pid agent1 action1).snd ∧
      (∀ (st2 : ProfitabilitySession) (ag ac : String),
        pid ∈ st2.baselines_created →
          (create_profitability_baseline st2 pid ag ac).snd = st2 ∧
          (create_profitability_baseline st2 pid ag ac).fst.success = true ∧
          (create_profitability_baseline st2 pid ag ac).fst.baseline_exists = true) := by
  have hsnap := create_snapshot_success st.db pid none (some agent1) (some action1) h2 h3
  have hr1 : create_profitability_baseline st pid agent1 action1 =
      ({ success := true, baseline_exists := false, baseline_created := true,
         error := none },
       { db := { st.db with
            snapshots := st.db.snapshots ++
              [newSnapshot st.db pid none (some agent1) (some action1)]
            nextId := st.db.nextId + 1
            now := st.db.now + 1 }
         baselines_created := pid :: st.baselines_created }) := by
    unfold create_profitability_baseline
    rw [if_neg h1, hsnap]
    rfl
  have hmem2 : pid ∈ (create_profitability_baseline st pid agent1 action1).snd.baselines_created := by
    rw [hr1]
    exact List.mem_cons_self pid st.baselines_created
  have hagain : ∀ (st2 : ProfitabilitySession) (ag ac : String),
      pid ∈ st2.baselines_created →
        create_profitability_baseline st2 pid ag ac =
          ({ success := true, baseline_exists := true, baseline_created := false,
             error := none }, st2) := by
    intro st2 ag ac hmem
    unfold create_profitability_baseline
    rw [if_pos hmem]
  refine ⟨newSnapshot st.db pid none (some agent1) (some action1),
    ?_, ?_, ?_, rfl, rfl, ?_, ?_, ?_, ?_⟩
  · rw [hr1]
  · rw [hr1]
  · rw [hr1]
  · rw [hagain _ agent2 action2 hmem2]
  · rw [hagain _ agent2 action2 hmem2]
  · rw [hagain _ agent2 action2 hmem2]
  · intro st2 ag ac hmem
    rw [hagain st2 ag ac hmem]
    exact ⟨rfl, rfl, rfl⟩

/-- A session state for the witnesses: live client, accepting store, Edge
Function reporting 100000, no snapshots yet, nothing created this session. -/
def freshSession : ProfitabilitySession :=
  { db := { clientPresent := true, snapshots := [], invokeResult := Except.ok 100000,
            insertOk := true, nextId := 1, now := 10 }
    baselines_created := [] }

/-- Witness for `baseline_once_per_session_c3` on `freshSession`. -/
theorem baseline_once_per_session_c3_witness :
    ∃ snap : ProfitabilitySnapshot,
      (create_profitability_baseline freshSession "P1" "system" "baseline_creation").fst.success = true ∧
      (create_profitability_baseline freshSession "P1" "system" "baseline_creation").fst.baseline_exists = false ∧
      (create_profitability_baseline freshSession "P1" "system" "baseline_creation").snd.db.snapshots =
        freshSession.db.snapshots ++ [snap] ∧
      snap.baseline_id = none ∧
      snap.project_id = "P1" ∧
      (create_profitability_baseline
          (create_profitability_baseline freshSession "P1" "system" "baseline_creation").snd
          "P1" "system" "baseline_creation").fst.success = true ∧
      (create_profitability_baseline
          (create_profitability_baseline freshSession "P1" "system" "baseline_creation").snd
          "P1" "system" "baseline_creation").fst.baseline_exists = true ∧
      (create_profitability_baseline
          (create_profitability_baseline freshSession "P1" "system" "baseline_creation").snd
          "P1" "system" "baseline_creation").snd =
        (create_profitability_baseline freshSession "P1" "system" "baseline_creation").snd ∧
      (∀ (st2 : ProfitabilitySession) (ag ac : String),
        "P1" ∈ st2.baselines_created →
          (create_profitability_baseline st2 "P1" ag ac).snd = st2 ∧
          (create_profitability_baseline st2 "P1" ag ac).fst.success = true ∧
          (create_profitability_baseline st2 "P1" ag ac).fst.baseline_exists = true) :=
  baseline_once_per_session_c3 freshSession "P1" "system" "baseline_creation"
    "system" "baseline_creation" (by decide) rfl rfl

/-- A database world in which the profitability-calculation collaborator (the
`get-total-profitability` Edge Function) is unreachable: its invocation
raises. -/
def dbCollaboratorDown : ProfitabilityDb :=
  { clientPresent := true
    snapshots := []
    invokeResult := Except.error "Edge Function unreachable"
    insertOk := true
    nextId := 1
    now := 5 }

/-- C5 counterexample: the claim requires snapshot creation to return
`success=false` whenever the collaborator invocation fails; with the
collaborator down, the source swallows the raised error inside
`calculate_project_profitability` (returning `0.0`) and snapshot creation
reports `success=true`, persisting a snapshot valued `0`. -/
theorem snapshot_failure_c5_counterexample :
    (create_snapshot_from_project_id dbCollaboratorDown "P1" none
        (some "resource_management") (some "reassignment")).fst.success = true ∧
    (create_snapshot_from_project_id dbCollaboratorDown "P1" none
        (some "resource_management") (some "reassignment")).snd.snapshots ≠ [] := by
  constructor
  · rfl
  · intro hcontra
    simp [create_snapshot_from_project_id, dbCollaboratorDown, newSnapshot] at hcontra

/-- C5 amended: when the collaborator invocation fails, the computation never
raises; `calculate_project_profitability` yields `0`, and snapshot creation
(with a live client and accepting store) returns `success=true` carrying a
persisted snapshot whose `total_profitability` is `0`, appended after the
previously persisted snapshots, which are all left unchanged. -/
theorem snapshot_failure_c5_amended (db : ProfitabilityDb) (pid : String)
    (ag ac : Option String) (msg : String)
    (hfail : db.invokeResult = Except.error msg)
    (hc : db.clientPresent = true) (hi : db.insertOk = true) :
    calculate_project_profitability db = 0 ∧
    (create_snapshot_from_project_id db pid none ag ac).fst.success = true ∧
    (create_snapshot_from_project_id db pid none ag ac).fst.snapshot =
      some (newSnapshot db pid none ag ac) ∧
    (newSnapshot db pid none ag ac).total_profitability = 0 ∧
    (create_snapshot_from_project_id db pid none ag ac).snd.snapshots =
      db.snapshots ++ [newSnapshot db pid none ag ac] := by
  have hcalc : calculate_project_profitability db = 0 := by
    simp [calculate_project_profitability, hc, hfail]
  have h := create_snapshot_success db pid none ag ac hc hi
  refine ⟨hcalc, ?_, ?_, ?_, ?_⟩
  · rw [h]
  · rw [h]
  · simp [newSnapshot, hcalc]
  · rw [h]

/-- Witness for `snapshot_failure_c5_amended` on `dbCollaboratorDown`. -/
theorem snapshot_failure_c5_witness :
    calculate_project_profitability dbCollaboratorDown = 0 ∧
    (create_snapshot_from_project_id dbCollaboratorDown "P1" none
        (some "resource_management") (some "reassignment")).fst.success = true ∧
    (create_snapshot_from_project_id dbCollaboratorDown "P1" none
        (some "resource_management") (some "reassignment")).fst.snapshot =
      some (newSnapshot dbCollaboratorDown "P1" none
        (some "resource_management") (some "reassignment")) ∧
    (newSnapshot dbCollaboratorDown "P1" none
        (some "resource_management") (some "reassignment")).total_profitability = 0 ∧
    (create_snapshot_from_project_id dbCollaboratorDown "P1" none
        (some "resource_management") (some "reassignment")).snd.snapshots =
      dbCollaboratorDown.snapshots ++
        [newSnapshot dbCollaboratorDown "P1" none
          (some "resource_management") (some "reassignment")] :=
  snapshot_failure_c5_amended dbCollaboratorDown "P1"
    (some "resource_management") (some "reassignment")
    "Edge Function unreachable" rfl rfl rfl

/-- C4: whenever `calculate_profitability_change_since_baseline` produces a
delta, the delta is computed against the latest baseline of the snapshot's
project and satisfies `change_amount = current - baseline`;
`change_percentage = change_amount / abs baseline * 100` exactly when the
baseline is nonzero, and is absent exactly when the baseline is zero;
`is_improvement` holds iff `change_amount > 0`, hence a zero change is not an
improvement. -/
theorem profitability_delta_c4 (db : ProfitabilityDb) (snapshot_id : Nat)
    (delta : ProfitabilityDelta)
    (hdelta : (calculate_profitability_change_since_baseline db snapshot_id).delta =
      some delta) :
    ∃ cs bs : ProfitabilitySnapshot,
      (get_profitability_snapshot_by_id db snapshot_id).snapshot = some cs ∧
      (get_latest_baseline_for_project db cs.project_id).snapshot = some bs ∧
      delta.current_profitability = cs.total_profitability ∧
      delta.baseline_profitability = bs.total_profitability ∧
      delta.change_amount = cs.total_profitability - bs.total_profitability ∧
      (bs.total_profitability ≠ 0 →
        delta.change_percentage =
          some (delta.change_amount / |bs.total_profitability| * 100)) ∧
      (bs.total_profitability = 0 → delta.change_percentage = none) ∧
      (delta.is_improvement = true ↔ 0 < delta.change_amount) ∧
      (delta.change_amount = 0 → delta.is_improvement = false) := by
  unfold calculate_profitability_change_since_baseline at hdelta
  dsimp only at hdelta
  cases hsu : (get_profitability_snapshot_by_id db snapshot_id).success <;>
    rw [hsu] at hdelta
  · simp at hdelta
  cases hsn : (get_profitability_snapshot_by_id db snapshot_id).snapshot <;>
    rw [hsn] at hdelta
  · simp at hdelta
  case true.some cs =>
  dsimp only at hdelta
  cases hbu : (get_latest_baseline_for_project db cs.project_id).success <;>
    rw [hbu] at hdelta
  · simp at hdelta
  cases hbn : (get_latest_baseline_for_project db cs.project_id).snapshot <;>
    rw [hbn] at hdelta
  · simp at hdelta
  case true.some bs =>
  simp only [DeltaResponse.delta, Option.some.injEq] at hdelta
  refine ⟨cs, bs, rfl, hbn, ?_, ?_, ?_, ?_, ?_, ?_, ?_⟩ <;> rw [← hdelta]
  · intro hb0
    simp [hb0]
  · intro hb0
    simp [hb0]
  · simp
  · intro h0
    have h0' : cs.total_profitability - bs.total_profitability = 0 := h0
    simp [h0']

/-- The persisted world of spec section 8's delta scenario: a baseline of
100000 for project P and a later comparison snapshot of 97000. -/
def deltaScenarioDb : ProfitabilityDb :=
  { clientPresent := true
    snapshots :=
      [{ id := 1
         created_at := 10
         project_id := "P"
         baseline_id := none
         total_profitability := 100000
         triggered_by_agent := some "system"
         triggered_by_action := some "baseline_creation" },
       { id := 2
         created_at := 11
         project_id := "P"
         baseline_id := some 1
         total_profitability := 97000
         triggered_by_agent := some "resource_management"
         triggered_by_action := some "reassignment" }]
    invokeResult := Except.ok 97000
    insertOk := true
    nextId := 3
    now := 12 }

/-- The delta the scenario produces: down 3000, i.e. -3 percent, not an
improvement. -/
def deltaScenarioDelta : ProfitabilityDelta :=
  { current_profitability := 97000
    baseline_profitability := 100000
    change_amount := -3000
    change_percentage := some (-3)
    is_improvement := false }

/-- Witness for `profitability_delta_c4` on `deltaScenarioDb`. -/
theorem profitability_delta_c4_witness :
    ∃ cs bs : ProfitabilitySnapshot,
      (get_profitability_snapshot_by_id deltaScenarioDb 2).snapshot = some cs ∧
      (get_latest_baseline_for_project deltaScenarioDb cs.project_id).snapshot = some bs ∧
      deltaScenarioDelta.current_profitability = cs.total_profitability ∧
      deltaScenarioDelta.baseline_profitability = bs.total_profitability ∧
      deltaScenarioDelta.change_amount =
        cs.total_profitability - bs.total_profitability ∧
      (bs.total_profitability ≠ 0 →
        deltaScenarioDelta.change_percentage =
          some (deltaScenarioDelta.change_amount / |bs.total_profitability| * 100)) ∧
      (bs.total_profitability = 0 → deltaScenarioDelta.change_percentage = none) ∧
      (deltaScenarioDelta.is_improvement = true ↔ 0 < deltaScenarioDelta.change_amount) ∧
      (deltaScenarioDelta.change_amount = 0 → deltaScenarioDelta.is_improvement = false) :=
  profitability_delta_c4 deltaScenarioDb 2 deltaScenarioDelta (by
    unfold calculate_profitability_change_since_baseline
    norm_num [get_profitability_snapshot_by_id, get_latest_baseline_for_project,
      pickLatest, deltaScenarioDb, deltaScenarioDelta, List.find?, List.filter,
      List.foldl])

/-- The `staffer_assignments` table as seen by the time-off flow: whether the
client is configured, and the stored (staffer_id, project_task_id) rows. -/
structure DataStore where
  clientPresent : Bool
  staffer_assignments : List (String × String)
deriving DecidableEq, Repr

/-- The tools registered on the agent by `resource_management_agent`
(`src/backend/app/agents/resource_management.py` lines 470-481):
`find_staffer_by_name`, `get_staffer_task_assignments`,
`find_available_staffers`, `create_new_task_assignment`,
`remove_task_assignment`.  A run of the flow is the sequence of tool calls
the LLM chooses from this closed set. -/
inductive ResourceTool where
  | find_staffer_by_name (staffer_name : String)
  | get_staffer_task_assignments (staffer_id : String) (start_date end_date : Date)
  | find_available_staffers (exclude_staffer_id : String)
  | create_new_task_assignment (new_staffer_id task_id : String)
  | remove_task_assignment (staffer_id task_id : String)
deriving DecidableEq, Repr

/-- Effect of one tool call on the store.  The first three tools only read
(`select` queries).  `create_new_task_assignment`
(`src/backend/app/agents/resource_management.py` lines 341-375) inserts one
`staffer_assignments` row when the client is configured;
`remove_task_assignment` (lines 378-407) deletes the matching rows. -/
def applyResourceTool (store : DataStore) : ResourceTool → DataStore
  | ResourceTool.create_new_task_assignment new_staffer_id task_id =>
      if store.clientPresent then
        { store with staffer_assignments :=
            store.staffer_assignments ++ [(new_staffer_id, task_id)] }
      else store
  | ResourceTool.remove_task_assignment staffer_id task_id =>
      if store.clientPresent then
        let kept := store.staffer_assignments.filter
          (fun p => !(decide (p.fst = staffer_id) && decide (p.snd = task_id)))
        { store with staffer_assignments := kept }
      else store
  | _ => store

/-- A run of the time-off reassignment flow: the chosen tool calls applied to
the store in order. -/
def runResourceManagementAgent (store : DataStore) (tool_calls : List ResourceTool) :
    DataStore :=
  tool_calls.foldl applyResourceTool store

/-- The tools that issue only `select` queries. -/
def isReadOnlyTool : ResourceTool → Bool
  | ResourceTool.create_new_task_assignment _ _ => false
  | ResourceTool.remove_task_assignment _ _ => false
  | _ => true

/-- C9 counterexample: the claim says every run of the flow leaves the stored
task assignments unchanged.  The flow's registered tool set includes
`create_new_task_assignment`; a run invoking it (which the system prompt
instructs: "Create new task assignments to ensure project continuity")
changes the store. -/
theorem read_only_flow_c9_counterexample :
    (runResourceManagementAgent
        { clientPresent := true, staffer_assignments := [] }
        [ResourceTool.create_new_task_assignment "S2" "T1"]).staffer_assignments =
      [("S2", "T1")] ∧
    (runResourceManagementAgent
        { clientPresent := true, staffer_assignments := [] }
        [ResourceTool.create_new_task_assignment "S2" "T1"]).staffer_assignments ≠
      ({ clientPresent := true,
         staffer_assignments := [] } : DataStore).staffer_assignments := by
  constructor
  · rfl
  · decide

/-- C9 amended: the flow is not read-only toward the Data Store — its tool
set includes `create_new_task_assignment` and `remove_task_assignment`, which
insert and delete `staffer_assignments` rows, and the agent itself may invoke
them (the counterexample exhibits a run that changes the store); every run
that invokes only the read-only tools leaves the stored assignments
unchanged.  (The converse is not claimed: a write tool can also leave the
store unchanged, e.g. deleting a non-matching row or writing without a
configured client.) -/
theorem read_only_flow_c9_amended (store : DataStore)
    (tool_calls : List ResourceTool)
    (h : ∀ c ∈ tool_calls, isReadOnlyTool c = true) :
    runResourceManagementAgent store tool_calls = store := by
  induction tool_calls generalizing store with
  | nil => rfl
  | cons c cs ih =>
      have hc : isReadOnlyTool c = true := h c (List.mem_cons_self c cs)
      have hstep : applyResourceTool store c = store := by
        cases c <;> first
          | (unfold applyResourceTool; rfl)
          | exact absurd hc (by simp [isReadOnlyTool])
      rw [runResourceManagementAgent, List.foldl_cons, hstep]
      exact ih store (fun d hd => h d (List.mem_cons_of_mem c hd))

/-- Witness for `read_only_flow_c9_amended`: a run of read-only lookups
leaves the store untouched. -/
theorem read_only_flow_c9_witness :
    runResourceManagementAgent
        { clientPresent := true, staffer_assignments := [("S1", "T1")] }
        [ResourceTool.find_staffer_by_name "Nate Hernandez",
         ResourceTool.get_staffer_task_assignments "S1" 18 22,
         ResourceTool.find_available_staffers "S1"] =
      { clientPresent := true, staffer_assignments := [("S1", "T1")] } :=
  read_only_flow_c9_amended
    { clientPresent := true, staffer_assignments := [("S1", "T1")] }
    [ResourceTool.find_staffer_by_name "Nate Hernandez",
     ResourceTool.get_staffer_task_assignments "S1" 18 22,
     ResourceTool.find_available_staffers "S1"]
    (by intro c hc; fin_cases hc <;> rfl)

end Vista
